import Mathlib

/-!
Verification development for the Vocal Prism engine.

The engine (JavaScript) is shallowly embedded here:
* exact-rational arithmetic (`ℚ`) models the parts of the code that only
  multiply, divide, compare and round decimal numbers (ratio tables, band
  lookups, harmonic series, 2-decimal rounding);
* real arithmetic (`ℝ`, with `Real.logb` and real exponentiation) models the
  pitch-math kernel (`freqToMidi`, `midiToFreq`, cents conversions), which is
  built on `Math.log2` / `Math.pow`;
* `Math.round` is `jsRound`: round to nearest, ties toward +∞;
* the module-level mutable tuning reference (`A4_FREQ`, mutated by
  `setTuning`) and the wall clock read by `new Date().toISOString()` are made
  explicit as a `ModuleState` record threaded through `calculatePrism`.

Constant narrative prose fields of the analyzer records (fields whose value is
a fixed string literal, never depending on the input) are omitted from the
embedded records; every input-dependent field is kept.
-/

namespace VocalPrism

/-! ## Rounding helpers (JavaScript `Math.round` semantics) -/

/-- JavaScript `Math.round` on an exact rational: nearest integer, ties toward
+∞, i.e. `⌊q + 1/2⌋`. -/
def jsRound (q : ℚ) : ℤ := ⌊q + 1 / 2⌋

/-- Source `Math.round(q * 100) / 100`: round to two decimal places, as used by the
engine for displayed Hz values. -/
def round2 (q : ℚ) : ℚ := (jsRound (q * 100) : ℚ) / 100

/-- Source `Math.round` on a real argument (used where the rounded quantity comes out
of the logarithmic pitch kernel). -/
noncomputable def jsRoundR (x : ℝ) : ℤ := ⌊x + 1 / 2⌋

/-- Source `Math.round(x * 100) / 100` on a real argument. -/
noncomputable def round2R (x : ℝ) : ℝ := (jsRoundR (x * 100) : ℝ) / 100

/-! ## Pitch kernel (src/src/engine/tuning.js and pitchUtils.js)

Both files define the same formulas; `tuning.js` takes the reference pitch
`a4` as an explicit parameter (default 440), `pitchUtils.js` defaults it to
the module-level mutable `A4_FREQ`.  The embedding always passes `a4`
explicitly. -/

/-- Source `freqToMidi(freq, a4) = 69 + 12 * Math.log2(freq / a4)`. -/
noncomputable def freqToMidi (freq a4 : ℝ) : ℝ := 69 + 12 * Real.logb 2 (freq / a4)

/-- Source `midiToFreq(midi, a4) = a4 * Math.pow(2, (midi - 69) / 12)`. -/
noncomputable def midiToFreq (midi a4 : ℝ) : ℝ := a4 * (2 : ℝ) ^ ((midi - 69) / 12)

/-- Source `centsBetween(f1, f2) = 1200 * Math.log2(f1 / f2)` (tuning.js); the same
formula is `centsDifference` in pitchUtils.js. -/
noncomputable def centsBetween (f1 f2 : ℝ) : ℝ := 1200 * Real.logb 2 (f1 / f2)

/-- Source `ratioToCents(r) = 1200 * Math.log2(r)`. -/
noncomputable def ratioToCents (r : ℝ) : ℝ := 1200 * Real.logb 2 r

/-- Source `centsToRatio(c) = Math.pow(2, c / 1200)`. -/
noncomputable def centsToRatio (c : ℝ) : ℝ := (2 : ℝ) ^ (c / 1200)

/-- The twelve pitch-class names used by `freqToNoteName`. -/
def NOTE_NAMES : List String :=
  ["C", "C#", "D", "D#"] ++ ["E", "F", "F#", "G"] ++ ["G#", "A", "A#", "B"]

/-- JavaScript `%` on integers (remainder with the sign of the dividend). -/
def jsMod (a b : ℤ) : ℤ := Int.tmod a b

/-- Pitch-class index of a rounded MIDI number: `((midi % 12) + 12) % 12`. -/
def noteIndexOf (midiRounded : ℤ) : ℤ := jsMod (jsMod midiRounded 12 + 12) 12

/-- Octave number of a rounded MIDI number: `Math.floor(midi / 12) - 1`. -/
def octaveOf (midiRounded : ℤ) : ℤ := Int.fdiv midiRounded 12 - 1

/-- Source `freqToNoteName(freq, a4)`: note name with octave, e.g. "A4". -/
noncomputable def freqToNoteName (freq a4 : ℝ) : String :=
  let m := jsRoundR (freqToMidi freq a4)
  (NOTE_NAMES.getD (noteIndexOf m).toNat "C") ++ toString (octaveOf m)

/-- Source `freqToNoteNameOnly(freq, a4)`: pitch class without octave. -/
noncomputable def freqToNoteNameOnly (freq a4 : ℝ) : String :=
  let m := jsRoundR (freqToMidi freq a4)
  NOTE_NAMES.getD (noteIndexOf m).toNat "C"

/-- Source `freqToNearestStandard(freq, a4) = midiToFreq(Math.round(freqToMidi(freq, a4)), a4)`. -/
noncomputable def freqToNearestStandard (freq a4 : ℝ) : ℝ :=
  midiToFreq (jsRoundR (freqToMidi freq a4) : ℝ) a4

/-! ## Claim C3 — MIDI round trip -/

/-- C3: for every frequency `freq > 0` and reference `a4 > 0`,
`midiToFreq(freqToMidi(freq, a4), a4)` equals `freq` within `1e-9` relative
error.  In the real-number model the round trip is exact, which implies the
tolerance bound stated by the spec. -/
theorem midi_roundtrip (freq a4 : ℝ) (hf : 0 < freq) (ha : 0 < a4) :
    midiToFreq (freqToMidi freq a4) a4 = freq ∧
      |midiToFreq (freqToMidi freq a4) a4 - freq| ≤ 1e-9 * freq := by
  have hdiv : 0 < freq / a4 := div_pos hf ha
  have key : midiToFreq (freqToMidi freq a4) a4 = freq := by
    unfold midiToFreq freqToMidi
    have : (69 + 12 * Real.logb 2 (freq / a4) - 69) / 12 = Real.logb 2 (freq / a4) := by
      ring
    rw [this, Real.rpow_logb (by norm_num) (by norm_num) hdiv]
    field_simp
  refine ⟨key, ?_⟩
  rw [key]
  simp only [sub_self, abs_zero]
  positivity

/-- Witness for C3 at `freq = 440`, `a4 = 432`. -/
theorem midi_roundtrip_witness :
    midiToFreq (freqToMidi 440 432) 432 = 440 ∧
      |midiToFreq (freqToMidi 440 432) 432 - 440| ≤ 1e-9 * 440 :=
  midi_roundtrip 440 432 (by norm_num) (by norm_num)

/-! ## Claim C8 — cents identities -/

/-- C8: `centsBetween(f, f) = 0`, `centsBetween(2f, f) = 1200`, and
`centsToRatio(ratioToCents(r)) = r` for every `f > 0` and `r > 0`. -/
theorem cents_identities (f r : ℝ) (hf : 0 < f) (hr : 0 < r) :
    centsBetween f f = 0 ∧ centsBetween (2 * f) f = 1200 ∧
      centsToRatio (ratioToCents r) = r := by
  refine ⟨?_, ?_, ?_⟩
  · unfold centsBetween
    rw [div_self hf.ne', Real.logb_one, mul_zero]
  · unfold centsBetween
    rw [mul_div_assoc, div_self hf.ne', mul_one]
    rw [show Real.logb 2 2 = 1 from Real.logb_self_eq_one (by norm_num)]
    norm_num
  · unfold centsToRatio ratioToCents
    rw [mul_div_cancel_left₀ _ (by norm_num : (1200 : ℝ) ≠ 0)]
    exact Real.rpow_logb (by norm_num) (by norm_num) hr

/-- Witness for C8 at `f = 3`, `r = 5`. -/
theorem cents_identities_witness :
    centsBetween 3 3 = 0 ∧ centsBetween (2 * 3) 3 = 1200 ∧
      centsToRatio (ratioToCents 5) = 5 :=
  cents_identities 3 5 (by norm_num) (by norm_num)

/-! ## Rational bounds on base-2 logarithms

`logb 2 x` is pinched between rationals `p/q` by comparing integer powers:
`2^p < x^q` forces `p/q < logb 2 x`, and symmetrically. -/

lemma div_lt_logb_two (p q : ℕ) (x : ℝ) (hq : 0 < q) (hx : 0 < x)
    (h : (2 : ℝ) ^ p < x ^ q) : (p : ℝ) / q < Real.logb 2 x := by
  rw [Real.lt_logb_iff_rpow_lt (by norm_num : (1 : ℝ) < 2) hx]
  have h2 : ((2 : ℝ) ^ ((p : ℝ) / q)) ^ q = 2 ^ p := by
    rw [← Real.rpow_natCast ((2 : ℝ) ^ ((p : ℝ) / q)) q,
      ← Real.rpow_mul (by norm_num : (0 : ℝ) ≤ 2),
      div_mul_cancel₀ _ (Nat.cast_ne_zero.mpr hq.ne'), Real.rpow_natCast]
  refine lt_of_pow_lt_pow_left₀ q hx.le ?_
  rw [h2]; exact h

lemma logb_two_lt_div (p q : ℕ) (x : ℝ) (hq : 0 < q) (hx : 0 < x)
    (h : x ^ q < (2 : ℝ) ^ p) : Real.logb 2 x < (p : ℝ) / q := by
  rw [Real.logb_lt_iff_lt_rpow (by norm_num : (1 : ℝ) < 2) hx]
  have h2 : ((2 : ℝ) ^ ((p : ℝ) / q)) ^ q = 2 ^ p := by
    rw [← Real.rpow_natCast ((2 : ℝ) ^ ((p : ℝ) / q)) q,
      ← Real.rpow_mul (by norm_num : (0 : ℝ) ≤ 2),
      div_mul_cancel₀ _ (Nat.cast_ne_zero.mpr hq.ne'), Real.rpow_natCast]
  refine lt_of_pow_lt_pow_left₀ q (Real.rpow_pos_of_pos (by norm_num) _).le ?_
  rw [h2]; exact h

/-! ## Verification harness (src/src/engine/tuning.js, `verifyMath`) -/

/-- One entry of the list returned by `verifyMath()`. -/
structure VCheck where
  test : String
  expected : ℝ
  actual : ℝ
  tol : ℝ

/-- The `pass` field of a check: `Math.abs(actual - expected) < tol`. -/
def VCheck.pass (c : VCheck) : Prop := |c.actual - c.expected| < c.tol

/-- Check 1: A4 (440 Hz) → MIDI 69. -/
noncomputable def check1 : VCheck := ⟨"A4 (440 Hz) -> MIDI 69", 69, freqToMidi 440 440, 0.0001⟩

/-- Check 2: MIDI 69 → 440 Hz. -/
noncomputable def check2 : VCheck := ⟨"MIDI 69 -> 440 Hz", 440, midiToFreq 69 440, 0.0001⟩

/-- Check 3: octave (2:1) → 1200 cents. -/
noncomputable def check3 : VCheck := ⟨"Octave (2:1) -> 1200 cents", 1200, ratioToCents 2, 0.0001⟩

/-- Check 4: perfect 5th (3:2) → 701.96 cents. -/
noncomputable def check4 : VCheck :=
  ⟨"Perfect 5th (3:2) -> 701.96 cents", 701.96, ratioToCents (3 / 2), 0.01⟩

/-- Check 5: just major 3rd (5:4) → 386.31 cents. -/
noncomputable def check5 : VCheck :=
  ⟨"Just Major 3rd (5:4) -> 386.31 cents", 386.31, ratioToCents (5 / 4), 0.01⟩

/-- Check 6: ET major 3rd (`Math.pow(2, 4/12)`) → 400 cents. -/
noncomputable def check6 : VCheck :=
  ⟨"ET Major 3rd -> 400 cents", 400, ratioToCents ((2 : ℝ) ^ ((4 : ℝ) / 12)), 0.0001⟩

/-- Check 7: syntonic comma (Pythagorean 3rd minus just 3rd) → 21.51 cents. -/
noncomputable def check7 : VCheck :=
  ⟨"Syntonic comma -> 21.51 cents", 21.51, ratioToCents (81 / 64) - ratioToCents (5 / 4), 0.01⟩

/-- Check 8: `432 / 240 = 1.8 = 9/5` (minor 7th). -/
noncomputable def check8 : VCheck :=
  ⟨"432/240 = 1.8 = 9/5 (minor 7th)", 9 / 5, 432 / 240, 0.0001⟩

/-- Check 9: the f0 that makes 432 Hz the just major 7th (15:8). -/
noncomputable def check9 : VCheck :=
  ⟨"f0 for 432 as Ni (15/8)", 230.4, 432 / (15 / 8), 0.01⟩

/-- The full list built by `verifyMath()`. -/
noncomputable def verifyMath : List VCheck :=
  [check1, check2, check3, check4, check5, check6, check7, check8, check9]

/-- C5: every check produced by `verifyMath()` has `pass = true`: the MIDI
round trips, octave = 1200¢, perfect 5th within 0.01 of 701.96¢, just major
3rd within 0.01 of 386.31¢, ET major 3rd = 400¢, syntonic comma within 0.01 of
21.51¢, 432/240 = 9/5 within 1e-4, and f0 = 230.4 for 432 Hz as the 15:8
major 7th. -/
theorem verifyMath_all_pass :
    verifyMath.length = 9 ∧
      check1.pass ∧ check2.pass ∧ check3.pass ∧ check4.pass ∧ check5.pass ∧
      check6.pass ∧ check7.pass ∧ check8.pass ∧ check9.pass := by
  have hlogb2 : Real.logb 2 2 = 1 := Real.logb_self_eq_one (by norm_num)
  refine And.intro rfl (And.intro ?_ (And.intro ?_ (And.intro ?_ (And.intro ?_
    (And.intro ?_ (And.intro ?_ (And.intro ?_ (And.intro ?_ ?_))))))))
  · -- freqToMidi 440 440 = 69
    simp only [VCheck.pass, check1, freqToMidi]
    rw [div_self (by norm_num : (440 : ℝ) ≠ 0), Real.logb_one]
    norm_num
  · -- midiToFreq 69 440 = 440
    simp only [VCheck.pass, check2, midiToFreq]
    norm_num
  · -- 1200 · log2 2 = 1200
    simp only [VCheck.pass, check3, ratioToCents, hlogb2]
    norm_num
  · -- perfect fifth: 389/665 < log2 (3/2) < 179/306
    have hl := div_lt_logb_two 389 665 (3 / 2) (by norm_num) (by norm_num) (by norm_num)
    have hu := logb_two_lt_div 179 306 (3 / 2) (by norm_num) (by norm_num) (by norm_num)
    simp only [VCheck.pass, check4, ratioToCents]
    rw [abs_lt]
    constructor <;> [nlinarith; nlinarith]
  · -- just major third: 47/146 < log2 (5/4) < 207/643
    have hl := div_lt_logb_two 47 146 (5 / 4) (by norm_num) (by norm_num) (by norm_num)
    have hu := logb_two_lt_div 207 643 (5 / 4) (by norm_num) (by norm_num) (by norm_num)
    simp only [VCheck.pass, check5, ratioToCents]
    rw [abs_lt]
    constructor <;> [nlinarith; nlinarith]
  · -- ET major third is exactly 400 cents
    simp only [VCheck.pass, check6, ratioToCents]
    rw [Real.logb_rpow (by norm_num : (0 : ℝ) < 2) (by norm_num : (2 : ℝ) ≠ 1)]
    norm_num
  · -- syntonic comma: log2 (81/64) − log2 (5/4) = log2 (81/80)
    have hcomb : Real.logb 2 (81 / 64) - Real.logb 2 (5 / 4) = Real.logb 2 (81 / 80) := by
      rw [← Real.logb_div (by norm_num) (by norm_num)]
      norm_num
    have hl := div_lt_logb_two 5 279 (81 / 80) (by norm_num) (by norm_num) (by norm_num)
    have hu := logb_two_lt_div 29 1618 (81 / 80) (by norm_num) (by norm_num) (by norm_num)
    simp only [VCheck.pass, check7, ratioToCents]
    rw [show (1200 : ℝ) * Real.logb 2 (81 / 64) - 1200 * Real.logb 2 (5 / 4)
        = 1200 * (Real.logb 2 (81 / 64) - Real.logb 2 (5 / 4)) by ring, hcomb, abs_lt]
    constructor <;> [nlinarith; nlinarith]
  · -- 432/240 = 9/5 exactly
    simp only [VCheck.pass, check8]
    norm_num
  · -- 432 / (15/8) = 230.4 exactly
    simp only [VCheck.pass, check9]
    norm_num

/-! ## The 22-shruti table (src/unnamed/part_008 `SHRUTIS`, ratios.js) -/

/-- One entry of the `SHRUTIS` table: index, exact rational ratio (numerator,
denominator and its value), svara and traditional name, precomputed cents. -/
structure Shruti where
  idx : ℕ
  num : ℕ
  den : ℕ
  decimal : ℚ
  svara : String
  name : String
  cents : ℚ
deriving DecidableEq, Inhabited

/-- The 23-entry `SHRUTIS` constant (Sa 1:1 up to the octave 2:1). -/
def SHRUTIS : List Shruti :=
  [⟨1, 1, 1, 1, "Sa", "Shadja", 0⟩,
   ⟨2, 256, 243, 256 / 243, "Komal Re 1", "Ekashruti Rishabha", 90⟩,
   ⟨3, 16, 15, 16 / 15, "Komal Re 2", "Dvishruti Rishabha", 112⟩,
   ⟨4, 10, 9, 10 / 9, "Shuddha Re", "Trishruti Rishabha", 182⟩,
   ⟨5, 9, 8, 9 / 8, "Re", "Chatushruti Rishabha", 204⟩,
   ⟨6, 32, 27, 32 / 27, "Komal Ga 1", "Ekashruti Gandhara", 294⟩,
   ⟨7, 6, 5, 6 / 5, "Komal Ga 2", "Dvishruti Gandhara", 316⟩,
   ⟨8, 5, 4, 5 / 4, "Shuddha Ga", "Trishruti Gandhara", 386⟩,
   ⟨9, 81, 64, 81 / 64, "Ga", "Chatushruti Gandhara", 408⟩,
   ⟨10, 4, 3, 4 / 3, "Shuddha Ma", "Dvishruti Madhyama", 498⟩,
   ⟨11, 27, 20, 27 / 20, "Ma", "Trishruti Madhyama", 520⟩,
   ⟨12, 45, 32, 45 / 32, "Tivra Ma 1", "Chatushruti Madhyama", 590⟩,
   ⟨13, 729, 512, 729 / 512, "Tivra Ma 2", "Panchashruti Madhyama", 612⟩,
   ⟨14, 3, 2, 3 / 2, "Pa", "Panchama", 702⟩,
   ⟨15, 128, 81, 128 / 81, "Komal Dha 1", "Ekashruti Dhaivata", 792⟩,
   ⟨16, 8, 5, 8 / 5, "Komal Dha 2", "Dvishruti Dhaivata", 814⟩,
   ⟨17, 5, 3, 5 / 3, "Shuddha Dha", "Trishruti Dhaivata", 884⟩,
   ⟨18, 27, 16, 27 / 16, "Dha", "Chatushruti Dhaivata", 906⟩,
   ⟨19, 16, 9, 16 / 9, "Komal Ni 1", "Ekashruti Nishada", 996⟩,
   ⟨20, 9, 5, 9 / 5, "Komal Ni 2", "Dvishruti Nishada", 1018⟩,
   ⟨21, 15, 8, 15 / 8, "Shuddha Ni", "Trishruti Nishada", 1088⟩,
   ⟨22, 243, 128, 243 / 128, "Ni", "Chatushruti Nishada", 1110⟩,
   ⟨23, 2, 1, 2, "Sa\x27", "Octave", 1200⟩]

/-- One entry of the scaled shruti scale produced by `generateShrutiScale`:
the table row spread together with the computed `hz = f0 * decimal`. -/
structure ShrutiTone where
  shruti : Shruti
  hz : ℚ
deriving DecidableEq

/-- Source `generateShrutiScale(f0)` (src/src/engine/frameworks/vedic.js): every
`SHRUTIS` row with `hz = f0 * shruti.decimal`.  (The JS also attaches
`hzFormatted`, a rendering of the same `hz` value.) -/
def generateShrutiScale (f0 : ℚ) : List ShrutiTone :=
  SHRUTIS.map fun s => ⟨s, f0 * s.decimal⟩

/-- C7: the shruti table has exactly 23 entries with strictly increasing cents
from 0 (shruti 1, ratio 1:1) to 1200 (shruti 23, ratio 2:1), and for every
`f0 > 0` the scaled shruti Hz values are strictly increasing from `f0` to
`2 * f0`. -/
theorem shruti_ordering (f0 : ℚ) (hf : 0 < f0) :
    SHRUTIS.length = 23 ∧
      List.Chain' (· < ·) (SHRUTIS.map Shruti.cents) ∧
      (SHRUTIS.map Shruti.cents).head? = some 0 ∧
      (SHRUTIS.map Shruti.cents).getLast? = some 1200 ∧
      (SHRUTIS.map Shruti.decimal).head? = some 1 ∧
      (SHRUTIS.map Shruti.decimal).getLast? = some 2 ∧
      List.Chain' (· < ·) ((generateShrutiScale f0).map ShrutiTone.hz) ∧
      ((generateShrutiScale f0).map ShrutiTone.hz).head? = some f0 ∧
      ((generateShrutiScale f0).map ShrutiTone.hz).getLast? = some (2 * f0) := by
  refine ⟨by decide, ?_, by decide, by decide, by decide, by decide, ?_, ?_, ?_⟩
  · simp only [SHRUTIS, List.map_cons, List.map_nil, List.chain'_cons,
      List.chain'_singleton, and_true]
    norm_num
  · simp only [generateShrutiScale, SHRUTIS, List.map_cons, List.map_nil,
      List.chain'_cons, List.chain'_singleton, and_true, mul_lt_mul_left hf]
    norm_num
  · simp [generateShrutiScale, SHRUTIS]
  · simp only [generateShrutiScale, SHRUTIS, List.map_cons, List.map_nil]
    simp only [List.getLast?]
    norm_num [mul_comm]

/-- Witness for C7 at `f0 = 220`. -/
theorem shruti_ordering_witness :
    SHRUTIS.length = 23 ∧
      List.Chain' (· < ·) (SHRUTIS.map Shruti.cents) ∧
      (SHRUTIS.map Shruti.cents).head? = some 0 ∧
      (SHRUTIS.map Shruti.cents).getLast? = some 1200 ∧
      (SHRUTIS.map Shruti.decimal).head? = some 1 ∧
      (SHRUTIS.map Shruti.decimal).getLast? = some 2 ∧
      List.Chain' (· < ·) ((generateShrutiScale 220).map ShrutiTone.hz) ∧
      ((generateShrutiScale 220).map ShrutiTone.hz).head? = some 220 ∧
      ((generateShrutiScale 220).map ShrutiTone.hz).getLast? = some (2 * 220) :=
  shruti_ordering 220 (by norm_num)

/-! ## Classification tables and band lookups
(src/unnamed/part_008 ratios.js; lookups in vedic.js and western.js) -/

/-- One vocal-category band of `VOCAL_CATEGORIES`. -/
structure VocalBand where
  min : ℚ
  max : ℚ
  category : String
  range : String
  rangeNote : String
  description : String
deriving DecidableEq, Inhabited

/-- The six vocal-category bands (speaking-voice fundamentals). -/
def VOCAL_CATEGORIES : List VocalBand :=
  [⟨65, 100, "Bass", "65-100 Hz (E2-G2)", "E2-G2", "Lowest male speaking voice"⟩,
   ⟨100, 140, "Baritone", "100-140 Hz (G2-C#3)", "G2-C#3", "Most common male speaking voice"⟩,
   ⟨140, 180, "Tenor / Low Alto", "140-180 Hz (C#3-F#3)", "C#3-F#3",
     "Higher male or lower female speaking voice"⟩,
   ⟨180, 220, "Alto / Mezzo", "180-220 Hz (F#3-A3)", "F#3-A3", "Middle female speaking voice"⟩,
   ⟨220, 280, "Soprano", "220-280 Hz (A3-C#4)", "A3-C#4", "Higher female speaking voice"⟩,
   ⟨280, 400, "High Soprano", "280-400 Hz (C#4-G4)", "C#4-G4", "Highest female speaking voice"⟩]

/-- Result of `getVocalCategory` (western.js): the matched (or fallback) band
spread together with `rangeFormatted` and the unclamped `positionInRange`. -/
structure VocalCategoryResult where
  band : VocalBand
  rangeFormatted : String
  positionInRange : ℤ
deriving DecidableEq

/-- Source `getVocalCategory(f0)`: first band with `f0 >= min && f0 < max`, defaulting
to `VOCAL_CATEGORIES[2]` (Tenor / Low Alto); `positionInRange` is
`Math.round((f0 - min) / (max - min) * 100)`, not clamped. -/
def getVocalCategory (f0 : ℚ) : VocalCategoryResult :=
  let v := (VOCAL_CATEGORIES.find? fun v => decide (v.min ≤ f0 ∧ f0 < v.max)).getD
    (VOCAL_CATEGORIES.getD 2 default)
  ⟨v, toString v.min ++ "–" ++ toString v.max ++ " Hz",
    jsRound ((f0 - v.min) / (v.max - v.min) * 100)⟩

/-- One saptak (octave register) band of `SAPTAKS`. -/
structure SaptakBand where
  min : ℚ
  max : ℚ
  name : String
  description : String
  quality : String
  range : String
deriving DecidableEq, Inhabited

/-- The three saptak bands. -/
def SAPTAKS : List SaptakBand :=
  [⟨65, 131, "Mandra Saptak", "Lower octave",
     "Grounding, calming, associated with deep rest", "65-131 Hz"⟩,
   ⟨131, 262, "Madhya Saptak", "Middle octave",
     "Balanced, conversational, natural speaking range", "131-262 Hz"⟩,
   ⟨262, 523, "Taar Saptak", "Upper octave",
     "Energizing, expressive, associated with alertness", "262-523 Hz"⟩]

/-- Result of `getSaptak` (vedic.js): matched (or fallback `SAPTAKS[1]`) band
plus `rangeFormatted`. -/
structure SaptakResult where
  band : SaptakBand
  rangeFormatted : String
deriving DecidableEq

/-- Source `getSaptak(f0)`: first saptak band with `f0 >= min && f0 < max`,
defaulting to Madhya. -/
def getSaptak (f0 : ℚ) : SaptakResult :=
  let s := (SAPTAKS.find? fun s => decide (s.min ≤ f0 ∧ f0 < s.max)).getD
    (SAPTAKS.getD 1 default)
  ⟨s, toString s.min ++ "–" ++ toString s.max ++ " Hz"⟩

/-- One chakra entry; `cmax = none` models the `Infinity` upper bound of the
last entry. -/
structure Chakra where
  cmax : Option ℚ
  name : String
  note : String
  bija : String
  quality : String
  color : String
deriving DecidableEq, Inhabited

/-- The seven chakra entries of `CHAKRAS`. -/
def CHAKRAS : List Chakra :=
  [⟨some 130, "Root (Muladhara)", "C", "LAM", "Grounding, stability, security", "#E53935"⟩,
   ⟨some 147, "Sacral (Svadhisthana)", "D", "VAM", "Creativity, flow, emotion", "#FF9800"⟩,
   ⟨some 165, "Solar Plexus (Manipura)", "E", "RAM",
     "Will, confidence, transformation", "#FDD835"⟩,
   ⟨some 175, "Heart (Anahata)", "F", "YAM", "Connection, compassion, breath", "#4CAF50"⟩,
   ⟨some 196, "Throat (Vishuddha)", "G", "HAM", "Expression, truth, communication", "#2196F3"⟩,
   ⟨some 220, "Third Eye (Ajna)", "A", "OM", "Clarity, intuition, insight", "#673AB7"⟩,
   ⟨none, "Crown (Sahasrara)", "B", "Silence", "Transcendence, unity, presence", "#9C27B0"⟩]

/-- The predicate of the chakra lookup: `f0 < c.max` (always true for the
unbounded last entry). -/
def chakraMatches (f0 : ℚ) (c : Chakra) : Bool :=
  match c.cmax with
  | some m => decide (f0 < m)
  | none => true

/-- Source `getChakraAssociation(f0)` (vedic.js): `CHAKRAS.find(c => f0 < c.max)`,
defaulting to the last entry. -/
def getChakraAssociation (f0 : ℚ) : Chakra :=
  (CHAKRAS.find? (chakraMatches f0)).getD (CHAKRAS.getD (CHAKRAS.length - 1) default)

/-- One Gregorian mode record of `MODES`. -/
structure Mode where
  mode : String
  character : String
  affect : String
  use : String
deriving DecidableEq, Inhabited

/-- The seven Gregorian modes, keyed by base note letter. -/
def MODES : List (String × Mode) :=
  [("C", ⟨"Ionian (Major)", "Simple, direct", "Clarity, innocence", "Straightforward texts"⟩),
   ("D", ⟨"Dorian", "Serious, balanced", "Can express any emotion", "Versatile, commonly used"⟩),
   ("E", ⟨"Phrygian", "Mystic, introspective", "Incites to tears, penitential",
     "Lenten, penitential chants"⟩),
   ("F", ⟨"Lydian", "Bright, joyful", "Happiness, modesty", "Celebratory, gentle"⟩),
   ("G", ⟨"Mixolydian", "Uniting, moderate", "Brings extremes together", "Balanced expression"⟩),
   ("A", ⟨"Aeolian (Natural Minor)", "Melancholic, serious", "Sadness, contemplation",
     "Somber texts"⟩),
   ("B", ⟨"Locrian (Theoretical)", "Unstable, tense", "Rarely used due to diminished fifth",
     "Theoretical only"⟩)]

/-- Source `noteName.replace(/[#b]/g, '')`. -/
def stripAccidentals (s : String) : String :=
  String.mk (s.data.filter fun c => !(c == '#' || c == 'b'))

/-- Dictionary access `MODES[key]`. -/
def modeLookup (key : String) : Option Mode :=
  (MODES.find? fun p => p.1 == key).map Prod.snd

/-- Source `getModalCharacter(noteName)` (gregorian.js): strip accidentals, look up,
fall back to the C entry. -/
def getModalCharacter (noteName : String) : Mode :=
  (modeLookup (stripAccidentals noteName)).getD ((modeLookup "C").getD default)

/-- One key-signature record of `KEY_SIGNATURES`. -/
structure KeySig where
  sharps : ℕ
  flats : ℕ
  signature : String
  character : String
deriving DecidableEq, Inhabited

/-- The fourteen key signatures, keyed by pitch class. -/
def KEY_SIGNATURES : List (String × KeySig) :=
  [("C", ⟨0, 0, "No sharps or flats", "Pure, innocent, simple"⟩),
   ("G", ⟨1, 0, "1 sharp (F#)", "Bright, rustic, pastoral"⟩),
   ("D", ⟨2, 0, "2 sharps (F#, C#)", "Triumphant, joyful"⟩),
   ("A", ⟨3, 0, "3 sharps (F#, C#, G#)", "Warm, clear, hopeful"⟩),
   ("E", ⟨4, 0, "4 sharps (F#, C#, G#, D#)", "Bright, joyful, heavenly"⟩),
   ("B", ⟨5, 0, "5 sharps", "Wild, passionate"⟩),
   ("F#", ⟨6, 0, "6 sharps", "Brilliant, hard"⟩),
   ("C#", ⟨7, 0, "7 sharps", "Intense, complex"⟩),
   ("F", ⟨0, 1, "1 flat (Bb)", "Pastoral, calm"⟩),
   ("Bb", ⟨0, 2, "2 flats (Bb, Eb)", "Cheerful, joyous"⟩),
   ("Eb", ⟨0, 3, "3 flats", "Heroic, bold"⟩),
   ("Ab", ⟨0, 4, "4 flats", "Soft, gentle"⟩),
   ("Db", ⟨0, 5, "5 flats", "Warm, rich"⟩),
   ("Gb", ⟨0, 6, "6 flats", "Mellow, mysterious"⟩)]

/-- Source `noteName.replace(/[0-9]/g, '')`. -/
def stripDigits (s : String) : String :=
  String.mk (s.data.filter fun c => !c.isDigit)

/-- Dictionary access `KEY_SIGNATURES[key]`. -/
def keySigLookup (key : String) : Option KeySig :=
  (KEY_SIGNATURES.find? fun p => p.1 == key).map Prod.snd

/-- Source `getKeySignature(noteName)` (western.js): strip digits, look up, fall back
to the C entry. -/
def getKeySignature (noteName : String) : KeySig :=
  (keySigLookup (stripDigits noteName)).getD ((keySigLookup "C").getD default)

/-! ## Claim C9 — band partition -/

/-- C9: for every classification table, band lookup is first-match over
half-open `[min, max)` intervals; the interval tables are contiguous and
non-overlapping, every value of the supported domain lies in exactly one band
(stated as: the lookup result contains the value, and any two containing bands
coincide); the chakra lookup partitions the whole line into the implicit
bands below each `max`; every 12-TET pitch class resolves to exactly one mode
and one key-signature entry; and `f0 = 90` resolves to the lowest Bass band
`[65, 100)`. -/
theorem band_partition (f0 : ℚ) :
    (VOCAL_CATEGORIES.map fun v => (v.min, v.max)) =
      [(65, 100), (100, 140), (140, 180), (180, 220), (220, 280), (280, 400)] ∧
    (∀ v ∈ VOCAL_CATEGORIES, ∀ w ∈ VOCAL_CATEGORIES,
      v.min ≤ f0 → f0 < v.max → w.min ≤ f0 → f0 < w.max → v = w) ∧
    (65 ≤ f0 → f0 < 400 → (getVocalCategory f0).band ∈ VOCAL_CATEGORIES ∧
      (getVocalCategory f0).band.min ≤ f0 ∧ f0 < (getVocalCategory f0).band.max) ∧
    (SAPTAKS.map fun s => (s.min, s.max)) = [(65, 131), (131, 262), (262, 523)] ∧
    (∀ v ∈ SAPTAKS, ∀ w ∈ SAPTAKS,
      v.min ≤ f0 → f0 < v.max → w.min ≤ f0 → f0 < w.max → v = w) ∧
    (65 ≤ f0 → f0 < 523 → (getSaptak f0).band ∈ SAPTAKS ∧
      (getSaptak f0).band.min ≤ f0 ∧ f0 < (getSaptak f0).band.max) ∧
    (CHAKRAS.map Chakra.cmax) =
      [some 130, some 147, some 165, some 175, some 196, some 220, none] ∧
    ((f0 < 130 → (getChakraAssociation f0).name = "Root (Muladhara)") ∧
     (130 ≤ f0 → f0 < 147 → (getChakraAssociation f0).name = "Sacral (Svadhisthana)") ∧
     (147 ≤ f0 → f0 < 165 → (getChakraAssociation f0).name = "Solar Plexus (Manipura)") ∧
     (165 ≤ f0 → f0 < 175 → (getChakraAssociation f0).name = "Heart (Anahata)") ∧
     (175 ≤ f0 → f0 < 196 → (getChakraAssociation f0).name = "Throat (Vishuddha)") ∧
     (196 ≤ f0 → f0 < 220 → (getChakraAssociation f0).name = "Third Eye (Ajna)") ∧
     (220 ≤ f0 → (getChakraAssociation f0).name = "Crown (Sahasrara)")) ∧
    (∀ pc ∈ NOTE_NAMES, ∃ p ∈ MODES, getModalCharacter pc = p.2) ∧
    (∀ pc ∈ NOTE_NAMES, ∃ p ∈ KEY_SIGNATURES, getKeySignature pc = p.2) ∧
    ((getVocalCategory 90).band.category = "Bass" ∧
      (getVocalCategory 90).band.min = 65 ∧ (getVocalCategory 90).band.max = 100) := by
  refine ⟨rfl, ?_, ?_, rfl, ?_, ?_, rfl, ?_, by decide, by decide, by decide⟩
  · intro v hv w hw a1 a2 b1 b2
    fin_cases hv <;> fin_cases hw <;> first | rfl | (exfalso; simp_all; linarith)
  · intro h1 h2
    have key : (getVocalCategory f0).band ∈ VOCAL_CATEGORIES ∧
        (getVocalCategory f0).band.min ≤ f0 ∧ f0 < (getVocalCategory f0).band.max := by
      rcases lt_or_le f0 100 with c | c1
      · have hb : (getVocalCategory f0).band = VocalBand.mk 65 100 "Bass" "65-100 Hz (E2-G2)"
            "E2-G2" "Lowest male speaking voice" := by
          unfold getVocalCategory VOCAL_CATEGORIES
          rw [List.find?_cons_of_pos _ (by simp [h1, c])]
          rfl
        rw [hb]; exact ⟨by decide, h1, c⟩
      rcases lt_or_le f0 140 with c | c2
      · have hb : (getVocalCategory f0).band = VocalBand.mk 100 140 "Baritone"
            "100-140 Hz (G2-C#3)" "G2-C#3" "Most common male speaking voice" := by
          unfold getVocalCategory VOCAL_CATEGORIES
          rw [List.find?_cons_of_neg _ (by simp; intro; linarith),
            List.find?_cons_of_pos _ (by simp [c1, c])]
          rfl
        rw [hb]; exact ⟨by decide, c1, c⟩
      rcases lt_or_le f0 180 with c | c3
      · have hb : (getVocalCategory f0).band = VocalBand.mk 140 180 "Tenor / Low Alto"
            "140-180 Hz (C#3-F#3)" "C#3-F#3" "Higher male or lower female speaking voice" := by
          unfold getVocalCategory VOCAL_CATEGORIES
          rw [List.find?_cons_of_neg _ (by simp; intro; linarith),
            List.find?_cons_of_neg _ (by simp; intro; linarith),
            List.find?_cons_of_pos _ (by simp [c2, c])]
          rfl
        rw [hb]; exact ⟨by decide, c2, c⟩
      rcases lt_or_le f0 220 with c | c4
      · have hb : (getVocalCategory f0).band = VocalBand.mk 180 220 "Alto / Mezzo"
            "180-220 Hz (F#3-A3)" "F#3-A3" "Middle female speaking voice" := by
          unfold getVocalCategory VOCAL_CATEGORIES
          rw [List.find?_cons_of_neg _ (by simp; intro; linarith),
            List.find?_cons_of_neg _ (by simp; intro; linarith),
            List.find?_cons_of_neg _ (by simp; intro; linarith),
            List.find?_cons_of_pos _ (by simp [c3, c])]
          rfl
        rw [hb]; exact ⟨by decide, c3, c⟩
      rcases lt_or_le f0 280 with c | c5
      · have hb : (getVocalCategory f0).band = VocalBand.mk 220 280 "Soprano"
            "220-280 Hz (A3-C#4)" "A3-C#4" "Higher female speaking voice" := by
          unfold getVocalCategory VOCAL_CATEGORIES
          rw [List.find?_cons_of_neg _ (by simp; intro; linarith),
            List.find?_cons_of_neg _ (by simp; intro; linarith),
            List.find?_cons_of_neg _ (by simp; intro; linarith),
            List.find?_cons_of_neg _ (by simp; intro; linarith),
            List.find?_cons_of_pos _ (by simp [c4, c])]
          rfl
        rw [hb]; exact ⟨by decide, c4, c⟩
      · have hb : (getVocalCategory f0).band = VocalBand.mk 280 400 "High Soprano"
            "280-400 Hz (C#4-G4)" "C#4-G4" "Highest female speaking voice" := by
          unfold getVocalCategory VOCAL_CATEGORIES
          rw [List.find?_cons_of_neg _ (by simp; intro; linarith),
            List.find?_cons_of_neg _ (by simp; intro; linarith),
            List.find?_cons_of_neg _ (by simp; intro; linarith),
            List.find?_cons_of_neg _ (by simp; intro; linarith),
            List.find?_cons_of_neg _ (by simp; intro; linarith),
            List.find?_cons_of_pos _ (by simp [c5, h2])]
          rfl
        rw [hb]; exact ⟨by decide, c5, h2⟩
    exact key
  · intro v hv w hw a1 a2 b1 b2
    fin_cases hv <;> fin_cases hw <;> first | rfl | (exfalso; simp_all; linarith)
  · intro h1 h2
    rcases lt_or_le f0 131 with c | c1
    · have hb : (getSaptak f0).band = SaptakBand.mk 65 131 "Mandra Saptak" "Lower octave"
          "Grounding, calming, associated with deep rest" "65-131 Hz" := by
        unfold getSaptak SAPTAKS
        rw [List.find?_cons_of_pos _ (by simp [h1, c])]
        rfl
      rw [hb]; exact ⟨by decide, h1, c⟩
    rcases lt_or_le f0 262 with c | c2
    · have hb : (getSaptak f0).band = SaptakBand.mk 131 262 "Madhya Saptak" "Middle octave"
          "Balanced, conversational, natural speaking range" "131-262 Hz" := by
        unfold getSaptak SAPTAKS
        rw [List.find?_cons_of_neg _ (by simp; intro; linarith),
          List.find?_cons_of_pos _ (by simp [c1, c])]
        rfl
      rw [hb]; exact ⟨by decide, c1, c⟩
    · have hb : (getSaptak f0).band = SaptakBand.mk 262 523 "Taar Saptak" "Upper octave"
          "Energizing, expressive, associated with alertness" "262-523 Hz" := by
        unfold getSaptak SAPTAKS
        rw [List.find?_cons_of_neg _ (by simp; intro; linarith),
          List.find?_cons_of_neg _ (by simp; intro; linarith),
          List.find?_cons_of_pos _ (by simp [c2, h2])]
        rfl
      rw [hb]; exact ⟨by decide, c2, h2⟩
  · refine And.intro ?_ (And.intro ?_ (And.intro ?_ (And.intro ?_
      (And.intro ?_ (And.intro ?_ ?_)))))
    · intro c
      unfold getChakraAssociation CHAKRAS
      rw [List.find?_cons_of_pos _ (by simp [chakraMatches, c])]
      rfl
    · intro c1 c
      unfold getChakraAssociation CHAKRAS
      rw [List.find?_cons_of_neg _ (by simp [chakraMatches]; linarith),
        List.find?_cons_of_pos _ (by simp [chakraMatches, c])]
      rfl
    · intro c1 c
      unfold getChakraAssociation CHAKRAS
      rw [List.find?_cons_of_neg _ (by simp [chakraMatches]; linarith),
        List.find?_cons_of_neg _ (by simp [chakraMatches]; linarith),
        List.find?_cons_of_pos _ (by simp [chakraMatches, c])]
      rfl
    · intro c1 c
      unfold getChakraAssociation CHAKRAS
      rw [List.find?_cons_of_neg _ (by simp [chakraMatches]; linarith),
        List.find?_cons_of_neg _ (by simp [chakraMatches]; linarith),
        List.find?_cons_of_neg _ (by simp [chakraMatches]; linarith),
        List.find?_cons_of_pos _ (by simp [chakraMatches, c])]
      rfl
    · intro c1 c
      unfold getChakraAssociation CHAKRAS
      rw [List.find?_cons_of_neg _ (by simp [chakraMatches]; linarith),
        List.find?_cons_of_neg _ (by simp [chakraMatches]; linarith),
        List.find?_cons_of_neg _ (by simp [chakraMatches]; linarith),
        List.find?_cons_of_neg _ (by simp [chakraMatches]; linarith),
        List.find?_cons_of_pos _ (by simp [chakraMatches, c])]
      rfl
    · intro c1 c
      unfold getChakraAssociation CHAKRAS
      rw [List.find?_cons_of_neg _ (by simp [chakraMatches]; linarith),
        List.find?_cons_of_neg _ (by simp [chakraMatches]; linarith),
        List.find?_cons_of_neg _ (by simp [chakraMatches]; linarith),
        List.find?_cons_of_neg _ (by simp [chakraMatches]; linarith),
        List.find?_cons_of_neg _ (by simp [chakraMatches]; linarith),
        List.find?_cons_of_pos _ (by simp [chakraMatches, c])]
      rfl
    · intro c1
      unfold getChakraAssociation CHAKRAS
      rw [List.find?_cons_of_neg _ (by simp [chakraMatches]; linarith),
        List.find?_cons_of_neg _ (by simp [chakraMatches]; linarith),
        List.find?_cons_of_neg _ (by simp [chakraMatches]; linarith),
        List.find?_cons_of_neg _ (by simp [chakraMatches]; linarith),
        List.find?_cons_of_neg _ (by simp [chakraMatches]; linarith),
        List.find?_cons_of_neg _ (by simp [chakraMatches]; linarith),
        List.find?_cons_of_pos _ (by simp [chakraMatches])]
      rfl

/-- Witness for C9 at `f0 = 90` (inside the vocal and saptak domains). -/
theorem band_partition_witness :
    (65 ≤ (90 : ℚ) → (90 : ℚ) < 400 → (getVocalCategory 90).band ∈ VOCAL_CATEGORIES ∧
      (getVocalCategory 90).band.min ≤ 90 ∧ (90 : ℚ) < (getVocalCategory 90).band.max) ∧
    (65 ≤ (90 : ℚ) → (90 : ℚ) < 523 → (getSaptak 90).band ∈ SAPTAKS ∧
      (getSaptak 90).band.min ≤ 90 ∧ (90 : ℚ) < (getSaptak 90).band.max) ∧
    ((90 : ℚ) < 130 → (getChakraAssociation 90).name = "Root (Muladhara)") := by
  obtain ⟨-, -, h1, -, -, h2, -, h3, -⟩ := band_partition 90
  exact ⟨fun _ _ => h1 (by norm_num) (by norm_num),
    fun _ _ => h2 (by norm_num) (by norm_num), fun _ => h3.1 (by norm_num)⟩

/-! ## Claim C10 — out-of-band fallback of the vocal-category lookup -/

/-- C10: for `f0` in `[50, 65)` or `[400, 1000]` (accepted by the engine but
outside every vocal band) the lookup does not fail: it falls back to the
fixed Tenor / Low Alto band `[140, 180)` and computes `positionInRange`
against that band without clamping, so it is negative below 140 Hz and
exceeds 100 at or above 400 Hz. -/
theorem vocal_fallback (f0 : ℚ)
    (h : (50 ≤ f0 ∧ f0 < 65) ∨ (400 ≤ f0 ∧ f0 ≤ 1000)) :
    (getVocalCategory f0).band = VocalBand.mk 140 180 "Tenor / Low Alto"
      "140-180 Hz (C#3-F#3)" "C#3-F#3" "Higher male or lower female speaking voice" ∧
    (getVocalCategory f0).positionInRange = jsRound ((f0 - 140) / (180 - 140) * 100) ∧
    (f0 < 140 → (getVocalCategory f0).positionInRange < 0) ∧
    (400 ≤ f0 → 100 < (getVocalCategory f0).positionInRange) := by
  have hnone : VOCAL_CATEGORIES.find? (fun v => decide (v.min ≤ f0 ∧ f0 < v.max)) = none := by
    rw [List.find?_eq_none]
    intro v hv
    fin_cases hv <;> simp <;> intro hx <;>
      rcases h with ⟨h1, h2⟩ | ⟨h1, h2⟩ <;> linarith
  have hres : getVocalCategory f0 = ⟨VocalBand.mk 140 180 "Tenor / Low Alto"
      "140-180 Hz (C#3-F#3)" "C#3-F#3" "Higher male or lower female speaking voice",
      toString (140 : ℚ) ++ "–" ++ toString (180 : ℚ) ++ " Hz",
      jsRound ((f0 - 140) / (180 - 140) * 100)⟩ := by
    unfold getVocalCategory
    rw [hnone]
    rfl
  rw [hres]
  refine ⟨rfl, rfl, ?_, ?_⟩
  · intro hlt
    show jsRound ((f0 - 140) / (180 - 140) * 100) < 0
    unfold jsRound
    rw [Int.floor_lt]
    push_cast
    rcases h with ⟨h1, h2⟩ | ⟨h1, h2⟩ <;> linarith
  · intro hge
    show 100 < jsRound ((f0 - 140) / (180 - 140) * 100)
    unfold jsRound
    rw [Int.lt_floor_iff]
    push_cast
    linarith

/-- Witness for C10 at `f0 = 50` (below every band). -/
theorem vocal_fallback_witness :
    (getVocalCategory 50).band = VocalBand.mk 140 180 "Tenor / Low Alto"
      "140-180 Hz (C#3-F#3)" "C#3-F#3" "Higher male or lower female speaking voice" ∧
    (getVocalCategory 50).positionInRange = jsRound ((50 - 140) / (180 - 140) * 100) ∧
    ((50 : ℚ) < 140 → (getVocalCategory 50).positionInRange < 0) ∧
    (400 ≤ (50 : ℚ) → 100 < (getVocalCategory 50).positionInRange) :=
  vocal_fallback 50 (Or.inl (by norm_num))

/-! ## Display formatting helpers (pitchUtils.js `formatHz`, `formatCents`)

`toFixed(d)` of a positive number rounds to `d` decimals (ties up) and renders
with exactly `d` fractional digits. -/

/-- Source `q.toFixed(d)` for a rational `q` (as produced by the exact-ratio layer). -/
def toFixedQ (d : ℕ) (q : ℚ) : String :=
  let scaled : ℤ := jsRound (q * ((10 : ℚ) ^ d))
  if d = 0 then toString scaled
  else
    let p : ℤ := (10 : ℤ) ^ d
    let ip := Int.fdiv scaled p
    let fr := (scaled - ip * p).toNat
    let s := toString fr
    toString ip ++ "." ++ String.mk (List.replicate (d - s.length) '0') ++ s

/-- Source `formatHz(hz)`: 0 decimals at ≥ 1000, 1 decimal at ≥ 100, else 2. -/
def formatHzQ (hz : ℚ) : String :=
  if 1000 ≤ hz then toFixedQ 0 hz else if 100 ≤ hz then toFixedQ 1 hz else toFixedQ 2 hz

/-- Source `formatCents(cents)`: `Math.round`, `"±0¢"` when the rounded value is 0,
otherwise a signed integer with a cent sign. -/
noncomputable def formatCentsR (cents : ℝ) : String :=
  let r := jsRoundR cents
  if |r| < 1 then "±0¢" else (if 0 < r then "+" ++ toString r ++ "¢" else toString r ++ "¢")

/-! ## Scale generator (src/src/engine/prism.js `generateScale`)

`generateScale` iterates `Object.entries(JUST_INTONATION)` (ratios.js) in
insertion order, joining in the `DEGREES` and `SOLFEGE` maps; the three
constants are merged here into one entry list. -/

/-- One merged entry of ratios.js `JUST_INTONATION` / `SOLFEGE` / `DEGREES`. -/
structure JIEntry where
  svara : String
  solfege : String
  degree : ℕ
  rnum : ℕ
  rden : ℕ
  decimal : ℚ
  name : String
deriving DecidableEq, Inhabited

/-- The eight just-intonation degrees, in `Object.entries` insertion order. -/
def JUST_INTONATION : List JIEntry :=
  [⟨"Sa", "Do", 1, 1, 1, 1, "Unison"⟩,
   ⟨"Re", "Re", 2, 9, 8, 9 / 8, "Major Second"⟩,
   ⟨"Ga", "Mi", 3, 5, 4, 5 / 4, "Major Third"⟩,
   ⟨"Ma", "Fa", 4, 4, 3, 4 / 3, "Perfect Fourth"⟩,
   ⟨"Pa", "So", 5, 3, 2, 3 / 2, "Perfect Fifth"⟩,
   ⟨"Dha", "La", 6, 5, 3, 5 / 3, "Major Sixth"⟩,
   ⟨"Ni", "Ti", 7, 15, 8, 15 / 8, "Major Seventh"⟩,
   ⟨"Sa\x27", "Do\x27", 8, 2, 1, 2, "Octave"⟩]

/-- One scale degree produced by `generateScale`.  `hz` is the raw
`f0 * decimal` rounded to two decimals (`Math.round(hz * 100) / 100`); the
nearest-pitch fields come from the logarithmic kernel at the current `a4`. -/
structure ScaleDegree where
  degree : ℕ
  svara : String
  solfege : String
  hz : ℚ
  hzFormatted : String
  ratio : String
  ratioDecimal : ℚ
  intervalName : String
  nearestPitch : String
  nearestPitchHz : ℝ
  cents : ℤ
  centsFormatted : String

/-- Loop body of `generateScale` for one `JUST_INTONATION` entry. -/
noncomputable def mkScaleDegree (f0 : ℚ) (a4 : ℝ) (e : JIEntry) : ScaleDegree :=
  let hzRaw : ℝ := ((f0 * e.decimal : ℚ) : ℝ)
  let nearestStd := freqToNearestStandard hzRaw a4
  let cents := centsBetween hzRaw nearestStd
  { degree := e.degree
    svara := e.svara
    solfege := e.solfege
    hz := round2 (f0 * e.decimal)
    hzFormatted := formatHzQ (f0 * e.decimal)
    ratio := toString e.rnum ++ ":" ++ toString e.rden
    ratioDecimal := e.decimal
    intervalName := e.name
    nearestPitch := freqToNoteName hzRaw a4
    nearestPitchHz := round2R nearestStd
    cents := jsRoundR cents
    centsFormatted := formatCentsR cents }

/-- Source `generateScale(f0)`: the eight personalized scale degrees. -/
noncomputable def generateScale (f0 : ℚ) (a4 : ℝ) : List ScaleDegree :=
  JUST_INTONATION.map (mkScaleDegree f0 a4)

/-- The `hz` column of the generated scale, in closed form. -/
lemma generateScale_hz (f0 : ℚ) (a4 : ℝ) :
    (generateScale f0 a4).map ScaleDegree.hz =
      [round2 (f0 * 1), round2 (f0 * (9 / 8)), round2 (f0 * (5 / 4)),
       round2 (f0 * (4 / 3)), round2 (f0 * (3 / 2)), round2 (f0 * (5 / 3)),
       round2 (f0 * (15 / 8)), round2 (f0 * 2)] := rfl

/-- The map `round2` moves a value by at most 1/200 (upward ties included). -/
lemma round2_bounds (q : ℚ) : q - 1 / 200 < round2 q ∧ round2 q ≤ q + 1 / 200 := by
  unfold round2 jsRound
  have h1 : ((⌊q * 100 + 1 / 2⌋ : ℤ) : ℚ) ≤ q * 100 + 1 / 2 := Int.floor_le _
  have h2 : q * 100 + 1 / 2 - 1 < ((⌊q * 100 + 1 / 2⌋ : ℤ) : ℚ) := Int.sub_one_lt_floor _
  constructor <;> [linarith; linarith]

/-- Values at least 1/100 apart stay strictly ordered after `round2`. -/
lemma round2_lt_round2 {a b : ℚ} (h : a + 1 / 100 ≤ b) : round2 a < round2 b := by
  have ha := round2_bounds a
  have hb := round2_bounds b
  linarith [ha.2, hb.1]

/-! ## Claim C4 — scale shape -/

/-- C4 (amended): for `f0` in `[50, 1000]` the scale has exactly 8 degrees,
the stored 2-decimal `hz` values are strictly increasing from degree 1 to 8,
the raw degree-8 frequency is exactly twice the raw degree-1 frequency
(`ratioDecimal` 2 versus 1), and the stored degree-8 `hz` equals twice the
stored degree-1 `hz` up to the 2-decimal rounding (within 3/200); exact
equality of the stored values fails for some `f0` (see the counterexample). -/
theorem scale_monotone (f0 : ℚ) (a4 : ℝ) (h1 : 50 ≤ f0) (h2 : f0 ≤ 1000) :
    (generateScale f0 a4).length = 8 ∧
      List.Chain' (· < ·) ((generateScale f0 a4).map ScaleDegree.hz) ∧
      ((generateScale f0 a4).map ScaleDegree.hz).head? = some (round2 (f0 * 1)) ∧
      ((generateScale f0 a4).map ScaleDegree.hz).getLast? = some (round2 (f0 * 2)) ∧
      |round2 (f0 * 2) - 2 * round2 (f0 * 1)| < 3 / 200 := by
  refine ⟨rfl, ?_, ?_, ?_, ?_⟩
  · rw [generateScale_hz]
    simp only [List.chain'_cons, List.chain'_singleton, and_true]
    refine And.intro ?_ (And.intro ?_ (And.intro ?_ (And.intro ?_
      (And.intro ?_ (And.intro ?_ ?_))))) <;> exact round2_lt_round2 (by linarith)
  · rw [generateScale_hz]; rfl
  · rw [generateScale_hz]; rfl
  · have hb1 := round2_bounds (f0 * 1)
    have hb2 := round2_bounds (f0 * 2)
    rw [abs_lt]
    constructor <;> [nlinarith [hb1.1, hb1.2, hb2.1, hb2.2];
      nlinarith [hb1.1, hb1.2, hb2.1, hb2.2]]

/-- Witness for C4 at `f0 = 220`, `a4 = 440`. -/
theorem scale_monotone_witness :
    (generateScale 220 440).length = 8 ∧
      List.Chain' (· < ·) ((generateScale 220 440).map ScaleDegree.hz) ∧
      ((generateScale 220 440).map ScaleDegree.hz).head? = some (round2 (220 * 1)) ∧
      ((generateScale 220 440).map ScaleDegree.hz).getLast? = some (round2 (220 * 2)) ∧
      |round2 ((220 : ℚ) * 2) - 2 * round2 ((220 : ℚ) * 1)| < 3 / 200 :=
  scale_monotone 220 440 (by norm_num) (by norm_num)

/-- C4 counterexample: at `f0 = 12801/256 = 50.00390625` (inside `[50, 1000]`)
the stored degree-8 `hz` is `100.01` while twice the stored degree-1 `hz` is
`100`: the claimed exact doubling of the stored values fails. -/
theorem scale_octave_not_exact :
    ((generateScale (12801 / 256) 440).map ScaleDegree.hz).head? = some 50 ∧
      ((generateScale (12801 / 256) 440).map ScaleDegree.hz).getLast? = some (10001 / 100) ∧
      (10001 / 100 : ℚ) ≠ 2 * 50 := by
  rw [generateScale_hz]
  refine ⟨?_, ?_, by norm_num⟩
  · simp only [List.head?]
    congr 1
    norm_num [round2, jsRound]
  · simp only [List.getLast?]
    congr 1
    norm_num [round2, jsRound]

/-! ## Tibetan overtone series (src/src/engine/frameworks/tibetan.js) -/

/-- One entry of the fixed `intervalNames` table inside `getOvertones`:
harmonic number, interval name, short interval symbol, first-octave flag, and
the optional deviation annotation (`note`). -/
structure OvertoneInfo where
  harmonic : ℕ
  name : String
  interval : String
  inOctave : Bool
  note : Option String
deriving DecidableEq, Inhabited

/-- The 16 fixed `intervalNames` entries.  Only harmonics 7, 11 and 13 carry a
`note` annotation in the source; harmonic 14 has none. -/
def intervalNames : List OvertoneInfo :=
  [⟨1, "Fundamental", "P1", true, none⟩,
   ⟨2, "Octave", "P8", false, none⟩,
   ⟨3, "Perfect Fifth + Octave", "P5+P8", false, none⟩,
   ⟨4, "Double Octave", "2×P8", false, none⟩,
   ⟨5, "Major Third + 2 Octaves", "M3+2×P8", false, none⟩,
   ⟨6, "Perfect Fifth + 2 Octaves", "P5+2×P8", false, none⟩,
   ⟨7, "Flat Seventh + 2 Octaves", "m7+2×P8", false, some "~31¢ flat of 12-TET"⟩,
   ⟨8, "Triple Octave", "3×P8", false, none⟩,
   ⟨9, "Major Second + 3 Octaves", "M2+3×P8", false, none⟩,
   ⟨10, "Major Third + 3 Octaves", "M3+3×P8", false, none⟩,
   ⟨11, "Tritone + 3 Octaves", "TT+3×P8", false, some "~49¢ sharp of 12-TET"⟩,
   ⟨12, "Perfect Fifth + 3 Octaves", "P5+3×P8", false, none⟩,
   ⟨13, "Minor Sixth + 3 Octaves", "m6+3×P8", false, some "~41¢ sharp of 12-TET"⟩,
   ⟨14, "Flat Seventh + 3 Octaves", "m7+3×P8", false, none⟩,
   ⟨15, "Major Seventh + 3 Octaves", "M7+3×P8", false, none⟩,
   ⟨16, "Quadruple Octave", "4×P8", false, none⟩]

/-- One overtone record produced by `getOvertones`. -/
structure Overtone where
  harmonic : ℕ
  hz : ℚ
  hzFormatted : String
  noteName : String
  interval : String
  intervalShort : String
  inFirstOctave : Bool
  note : Option String

/-- Source `getOvertones(f0, count = 16)`: for `n = 1..16`, `hz = f0 * n` with the
fixed table metadata (`note: info.note || null`). -/
noncomputable def getOvertones (f0 : ℚ) (a4 : ℝ) : List Overtone :=
  (List.range 16).map fun i =>
    let n : ℕ := i + 1
    let freq : ℚ := f0 * (n : ℚ)
    let info := intervalNames.getD i default
    { harmonic := n
      hz := freq
      hzFormatted := formatHzQ freq
      noteName := freqToNoteName ((freq : ℚ) : ℝ) a4
      interval := info.name
      intervalShort := info.interval
      inFirstOctave := info.inOctave
      note := info.note }

/-- Harmonic numbers, Hz values and annotations of the overtone series, in
closed form. -/
lemma getOvertones_core (f0 : ℚ) (a4 : ℝ) :
    (getOvertones f0 a4).map (fun o => (o.harmonic, o.hz, o.note)) =
      [(1, f0 * 1, none), (2, f0 * 2, none), (3, f0 * 3, none), (4, f0 * 4, none),
       (5, f0 * 5, none), (6, f0 * 6, none), (7, f0 * 7, some "~31¢ flat of 12-TET"),
       (8, f0 * 8, none), (9, f0 * 9, none), (10, f0 * 10, none),
       (11, f0 * 11, some "~49¢ sharp of 12-TET"), (12, f0 * 12, none),
       (13, f0 * 13, some "~41¢ sharp of 12-TET"), (14, f0 * 14, none),
       (15, f0 * 15, none), (16, f0 * 16, none)] := by
  simp only [getOvertones, List.range_succ, List.range_zero, List.nil_append,
    List.cons_append, List.map_cons, List.map_nil, List.map_append, intervalNames]
  norm_num

/-! ## Claim C6 — Tibetan harmonic series and deviation annotations -/

/-- C6 (amended): for every `f0` the Tibetan analysis returns a 16-term
harmonic series with `hz = f0 × n` for `n = 1..16`, in which exactly the
harmonics 7, 11 and 13 carry a deviation annotation against 12-TET (7 about
31¢ flat, 11 about 49¢ sharp, 13 about 41¢ sharp); harmonic 14, though it is
the octave of harmonic 7, carries none.  In particular for `f0 = 300`
harmonic 7 has `hz = 2100` and is flagged ~31¢ flat. -/
theorem tibetan_overtones (f0 : ℚ) (a4 : ℝ) :
    (getOvertones f0 a4).length = 16 ∧
      (getOvertones f0 a4).map (fun o => (o.harmonic, o.hz, o.note)) =
        [(1, f0 * 1, none), (2, f0 * 2, none), (3, f0 * 3, none), (4, f0 * 4, none),
         (5, f0 * 5, none), (6, f0 * 6, none), (7, f0 * 7, some "~31¢ flat of 12-TET"),
         (8, f0 * 8, none), (9, f0 * 9, none), (10, f0 * 10, none),
         (11, f0 * 11, some "~49¢ sharp of 12-TET"), (12, f0 * 12, none),
         (13, f0 * 13, some "~41¢ sharp of 12-TET"), (14, f0 * 14, none),
         (15, f0 * 15, none), (16, f0 * 16, none)] ∧
      ((getOvertones 300 a4).map (fun o => (o.harmonic, o.hz, o.note)))[6]? =
        some (7, 2100, some "~31¢ flat of 12-TET") := by
  refine ⟨rfl, getOvertones_core f0 a4, ?_⟩
  rw [getOvertones_core 300 a4]
  norm_num

/-- C6 counterexample (to the claim as stated): harmonic 14 of the `f0 = 300`
series carries no deviation annotation (`note = null`), so it is not among the
annotated harmonics. -/
theorem tibetan_h14_not_flagged :
    ((getOvertones 300 440).map (fun o => (o.harmonic, o.note)))[13]? = some (14, none) := by
  have h : (getOvertones 300 440).map (fun o => (o.harmonic, o.note)) =
      [(1, none), (2, none), (3, none), (4, none), (5, none), (6, none),
       (7, some "~31¢ flat of 12-TET"), (8, none), (9, none), (10, none),
       (11, some "~49¢ sharp of 12-TET"), (12, none),
       (13, some "~41¢ sharp of 12-TET"), (14, none), (15, none), (16, none)] := by
    simp [getOvertones, List.range_succ, intervalNames]
  rw [h]
  rfl

/-! ## Claim C2 — top-level validation (src/src/engine/prism.js)

`calculatePrism` guards with `typeof f0 !== 'number' || f0 < 50 || f0 > 1000`.
The guard is modelled over IEEE-style JavaScript numbers: `JSNum` covers NaN,
the two infinities and finite values; every comparison involving NaN is
false.  (Non-number arguments are rejected by the `typeof` test and are not
modelled: the claim's interesting inputs are NaN and the infinities.) -/

/-- A JavaScript number as seen by the validation. -/
inductive JSNum where
  | nan
  | posInf
  | negInf
  | num (q : ℚ)
deriving DecidableEq

/-- JavaScript `<` on numbers: anything involving NaN is false; `-∞` is below
everything else, `+∞` above. -/
def jsLt : JSNum → JSNum → Bool
  | .nan, _ => false
  | _, .nan => false
  | .posInf, _ => false
  | .negInf, .negInf => false
  | .negInf, _ => true
  | .num _, .posInf => true
  | .num _, .negInf => false
  | .num a, .num b => decide (a < b)

/-- The throw condition of `calculatePrism` for a number argument:
`f0 < 50 || f0 > 1000` (`a > b` is `b < a`). -/
def prismValidationThrows (f0 : JSNum) : Bool :=
  jsLt f0 (.num 50) || jsLt (.num 1000) f0

/-- The claim's notion of a valid input: a finite number in `[50, 1000]`. -/
def isFiniteInRange : JSNum → Bool
  | .num q => decide (50 ≤ q ∧ q ≤ 1000)
  | _ => false

/-- C2 (bug exhibit): NaN is not a finite number in `[50, 1000]`, so the claim
(and the spec, and the guard's own error message) require a domain error —
but both NaN comparisons are false, so the guard does not throw and the
engine runs on NaN.  The infinities and finite out-of-range values are
rejected as claimed, and in-range values pass. -/
theorem nan_passes_validation :
    prismValidationThrows JSNum.nan = false ∧
      isFiniteInRange JSNum.nan = false ∧
      prismValidationThrows JSNum.posInf = true ∧
      prismValidationThrows JSNum.negInf = true ∧
      prismValidationThrows (JSNum.num 49) = true ∧
      prismValidationThrows (JSNum.num 1001) = true ∧
      prismValidationThrows (JSNum.num 220) = false ∧
      isFiniteInRange (JSNum.num 220) = true := by decide

/-! ## Module state (pitchUtils.js mutable tuning + the wall clock)

pitchUtils.js keeps a module-level mutable `currentTuning` / `A4_FREQ`
(mutated by `setTuning`), read by every pitch helper that is called without an
explicit `a4`; `calculatePrism` additionally reads the clock through
`new Date().toISOString()`.  Both are modelled as one explicit state record
threaded through the aggregator. -/

/-- One entry of `TUNING_STANDARDS` (tuning.js). -/
structure TuningStandard where
  name : String
  a4 : ℝ
  description : String
  context : String

/-- The closed registry of reference tunings. -/
noncomputable def TUNING_STANDARDS : List (String × TuningStandard) :=
  [("A440", ⟨"Modern Standard (A=440)", 440, "International standard since 1939 (ISO 16)",
     "Most recorded music, modern orchestras, digital instruments"⟩),
   ("A432", ⟨"Verdi Pitch (A=432)", 432, "Advocated by Verdi, some claim \"natural\" properties",
     "Historical interest, alternative tuning community"⟩),
   ("A415", ⟨"Baroque Pitch (A=415)", 415, "Common baroque tuning, ~1 semitone below modern",
     "Period instrument performance, baroque music"⟩),
   ("A466", ⟨"High Baroque (A=466)", 466, "North German baroque organs",
     "Some Bach organ works"⟩),
   ("A435", ⟨"French Diapason (A=435)", 435, "French standard from 1859",
     "Historical French orchestras"⟩),
   ("A444", ⟨"Scientific Pitch (C=256)", 444, "Also called \"Philosophical pitch\"",
     "Acoustics, some Waldorf education"⟩)]

/-- The mutable module state read by the engine: the current tuning id and its
A4 frequency (pitchUtils.js), plus the ISO timestamp the clock would produce
at the moment of the call. -/
structure ModuleState where
  currentTuning : String
  a4 : ℝ
  nowISO : String

/-- Source `setTuning(tuningId)`: update the module state when the id is known,
leave it unchanged otherwise. -/
noncomputable def setTuning (tuningId : String) (s : ModuleState) : ModuleState :=
  match TUNING_STANDARDS.find? (fun p => p.1 == tuningId) with
  | some p => { s with currentTuning := tuningId, a4 := p.2.a4 }
  | none => s

/-- Source `s.toLowerCase()`. -/
def lowerStr (s : String) : String := String.mk (s.data.map Char.toLower)

/-! ## Pythagorean analyzer (src/src/engine/frameworks/pythagorean.js) -/

/-- Source `getPythagoreanComma()` output (constant `description` prose omitted). -/
structure CommaInfo where
  ratio : String
  cents : ℝ

/-- Source `getPythagoreanComma()`: the comma in cents, rounded to 2 decimals. -/
noncomputable def getPythagoreanComma : CommaInfo :=
  ⟨"531441:524288", round2R (1200 * Real.logb 2 ((3 / 2 : ℝ) ^ (12 : ℕ) / 2 ^ (7 : ℕ)))⟩

/-- Source `getCircleOfFifthsPosition` output. -/
structure CirclePos where
  note : String
  position : ℤ
  accidentals : ℤ
  accidentalType : String
deriving DecidableEq

/-- Circle-of-fifths order starting from C (ratios.js `CIRCLE_OF_FIFTHS`). -/
def CIRCLE_OF_FIFTHS : List String :=
  ["C", "G", "D", "A", "E", "B", "F#", "Db", "Ab", "Eb", "Bb", "F"]

/-- JavaScript `Array.indexOf`: index of the first occurrence, `-1` if absent. -/
def jsIndexOf (l : List String) (x : String) : ℤ :=
  match l.findIdx? (· == x) with
  | some i => (i : ℤ)
  | none => -1

/-- The enharmonic `noteMap` of `getCircleOfFifthsPosition`
(`{'C#': 'Db', 'D#': 'Eb', 'F#': 'F#', 'G#': 'Ab', 'A#': 'Bb'}` with
fallthrough to the input). -/
def enharmonic (noteName : String) : String :=
  (((([("C#", "Db"), ("D#", "Eb"), ("F#", "F#"), ("G#", "Ab"), ("A#", "Bb")] :
    List (String × String)).find? (fun p => p.1 == noteName)).map Prod.snd).getD noteName)

/-- Source `getCircleOfFifthsPosition(f0)` given the note name of `f0`. -/
def getCircleOfFifthsPosition (noteName : String) : CirclePos :=
  let mapped := enharmonic noteName
  let position := jsIndexOf CIRCLE_OF_FIFTHS mapped
  let sharps : List String := ["G", "D", "A", "E", "B", "F#", "C#"]
  let flats : List String := ["F", "Bb", "Eb", "Ab", "Db", "Gb"]
  let acc : ℤ × String :=
    if sharps.contains noteName || sharps.contains mapped then
      (if jsIndexOf sharps noteName ≠ -1 then jsIndexOf sharps noteName + 1
       else jsIndexOf sharps mapped + 1, "sharps")
    else if flats.contains noteName || flats.contains mapped then
      (if jsIndexOf flats noteName ≠ -1 then jsIndexOf flats noteName + 1
       else jsIndexOf flats mapped + 1, "flats")
    else (0, "none")
  ⟨noteName, if 0 ≤ position then position else 0, acc.1, acc.2⟩

/-- One of the four interval entries of the Pythagorean analysis. -/
structure PythInterval where
  hz : ℚ
  hzFormatted : String
  ratio : String
  name : String

/-- The `intervals` record of the Pythagorean analysis. -/
structure PythIntervals where
  unison : PythInterval
  fourth : PythInterval
  fifth : PythInterval
  octave : PythInterval

/-- Source `analyzePythagorean` output (constant `insight` prose omitted). -/
structure PythagoreanResult where
  circlePosition : CirclePos
  comma : CommaInfo
  intervals : PythIntervals

/-- Source `analyzePythagorean(f0)`. -/
noncomputable def analyzePythagorean (f0 : ℚ) (a4 : ℝ) : PythagoreanResult :=
  let fifth := f0 * 3 / 2
  let fourth := f0 * 4 / 3
  let octave := f0 * 2
  { circlePosition := getCircleOfFifthsPosition (freqToNoteNameOnly ((f0 : ℚ) : ℝ) a4)
    comma := getPythagoreanComma
    intervals :=
      ⟨⟨f0, formatHzQ f0, "1:1", "Unison"⟩,
       ⟨fourth, formatHzQ fourth, "4:3", "Perfect Fourth"⟩,
       ⟨fifth, formatHzQ fifth, "3:2", "Perfect Fifth"⟩,
       ⟨octave, formatHzQ octave, "2:1", "Octave"⟩⟩ }

/-! ## Vedic analyzer (src/src/engine/frameworks/vedic.js) -/

/-- A raga with its shruti-subset membership list (ratios.js `RAGA_SHRUTIS`). -/
structure Raga where
  name : String
  shrutis : List ℕ
  description : String
deriving DecidableEq

/-- The five fixed raga patterns. -/
def RAGA_SHRUTIS : List (String × Raga) :=
  [("bilawal", ⟨"Bilawal", [1, 5, 8, 10, 14, 17, 21, 23], "Major scale equivalent"⟩),
   ("kafi", ⟨"Kafi", [1, 5, 7, 10, 14, 17, 20, 23], "Dorian-like scale"⟩),
   ("bhairav", ⟨"Bhairav", [1, 3, 8, 10, 14, 16, 21, 23], "Morning raga with flat 2nd and 6th"⟩),
   ("yaman", ⟨"Yaman", [1, 5, 8, 12, 14, 17, 21, 23], "Evening raga with sharp 4th"⟩),
   ("todi", ⟨"Todi", [1, 3, 7, 12, 14, 16, 21, 23], "Complex raga with multiple komal notes"⟩)]

/-- The saptak part of the Vedic analysis (constant context prose omitted;
`yourPosition` is the input-dependent context sentence). -/
structure SaptakInfo where
  name : String
  description : String
  quality : String
  range : String
  yourPosition : String
deriving DecidableEq

/-- The chakra part of the Vedic analysis: the matched entry without its
bound. -/
structure ChakraInfo where
  name : String
  note : String
  bija : String
  quality : String
  color : String
deriving DecidableEq

/-- Source `analyzeVedic` output (constant prose omitted; `floatingSaMeaning` is the
input-dependent `floatingSa.meaning` string). -/
structure VedicResult where
  saptak : SaptakInfo
  chakra : ChakraInfo
  floatingSaMeaning : String
  shrutiScale : List ShrutiTone
  ragas : List (String × Raga)
deriving DecidableEq

/-- Source `analyzeVedic(f0, scale)`; the `scale` argument is unused in the source
body and omitted here. -/
def analyzeVedic (f0 : ℚ) : VedicResult :=
  let saptak := getSaptak f0
  let chakra := getChakraAssociation f0
  { saptak := ⟨saptak.band.name, saptak.band.description, saptak.band.quality,
      saptak.rangeFormatted,
      "Your " ++ toString f0 ++ " Hz falls within " ++ saptak.band.name ++ " (" ++
        saptak.rangeFormatted ++ "). This is the " ++ lowerStr saptak.band.description ++ "."⟩
    chakra := ⟨chakra.name, chakra.note, chakra.bija, chakra.quality, chakra.color⟩
    floatingSaMeaning := "Your f0 of " ++ toString f0 ++
      " Hz becomes your Sa, and everything else relates to that center."
    shrutiScale := generateShrutiScale f0
    ragas := RAGA_SHRUTIS }

/-! ## Gregorian analyzer (src/src/engine/frameworks/gregorian.js) -/

/-- One organum voice (role strings are fixed). -/
structure OrganumVoice where
  hz : ℚ
  hzFormatted : String
  role : String
  ratio : Option String
deriving DecidableEq

/-- Source `analyzeGregorian` output (constant prose and the mode-selected constant
`context.example` omitted). -/
structure GregorianResult where
  mode : Mode
  voxPrincipalis : OrganumVoice
  parallelFifth : OrganumVoice
  parallelFourth : OrganumVoice
deriving DecidableEq

/-- Source `analyzeGregorian(f0, nearestPitch)`; the `nearestPitch` argument is
unused in the source body (the note name is recomputed from `f0`). -/
noncomputable def analyzeGregorian (f0 : ℚ) (a4 : ℝ) : GregorianResult :=
  let noteName := freqToNoteNameOnly ((f0 : ℚ) : ℝ) a4
  let modal := getModalCharacter noteName
  let fifth := f0 * 3 / 2
  let fourth := f0 * 4 / 3
  { mode := modal
    voxPrincipalis := ⟨f0, formatHzQ f0, "Main voice (vox principalis)", none⟩
    parallelFifth := ⟨fifth, formatHzQ fifth, "Parallel fifth above", some "3:2"⟩
    parallelFourth := ⟨fourth, formatHzQ fourth, "Parallel fourth above", some "4:3"⟩ }

/-! ## Western analyzer (src/src/engine/frameworks/western.js) -/

/-- The key-signature part of the Western analysis. -/
structure KeySignatureInfo where
  key : String
  sharps : ℕ
  flats : ℕ
  signature : String
  character : String
deriving DecidableEq

/-- The vocal-category part (constant context prose omitted; `contextNote` is
the input-dependent `context.note`). -/
structure VocalCategoryInfo where
  category : String
  range : String
  rangeNote : String
  description : String
  positionInRange : ℤ
  contextNote : String
deriving DecidableEq

/-- One degree of the I–IV–V triad. -/
structure TriadDegree where
  degree : String
  role : String
  note : String
  hz : ℚ
  hzFormatted : String
deriving DecidableEq

/-- Source `analyzeWestern` output (constant prose omitted; `insight` is the
input-dependent closing sentence). -/
structure WesternResult where
  keySignature : KeySignatureInfo
  vocalCategory : VocalCategoryInfo
  chordI : TriadDegree
  chordIV : TriadDegree
  chordV : TriadDegree
  insight : String
deriving DecidableEq

/-- Source `analyzeWestern(f0, nearestPitch)`; as in the source, the note names are
recomputed from the frequencies. -/
noncomputable def analyzeWestern (f0 : ℚ) (a4 : ℝ) : WesternResult :=
  let noteName := freqToNoteNameOnly ((f0 : ℚ) : ℝ) a4
  let keySig := getKeySignature noteName
  let vocal := getVocalCategory f0
  let fourthHz := f0 * 4 / 3
  let fifthHz := f0 * 3 / 2
  let ivNote := freqToNoteNameOnly ((fourthHz : ℚ) : ℝ) a4
  let vNote := freqToNoteNameOnly ((fifthHz : ℚ) : ℝ) a4
  { keySignature := ⟨noteName ++ " Major", keySig.sharps, keySig.flats,
      keySig.signature, keySig.character⟩
    vocalCategory := ⟨vocal.band.category, vocal.rangeFormatted, vocal.band.rangeNote,
      vocal.band.description, vocal.positionInRange,
      "Your " ++ toString f0 ++ " Hz is " ++ toString vocal.positionInRange ++
        "% through the " ++ vocal.band.category ++ " range (" ++ vocal.rangeFormatted ++ ")."⟩
    chordI := ⟨"I", "Tonic", noteName, f0, formatHzQ f0⟩
    chordIV := ⟨"IV", "Subdominant", ivNote, fourthHz, formatHzQ fourthHz⟩
    chordV := ⟨"V", "Dominant", vNote, fifthHz, formatHzQ fifthHz⟩
    insight := "The I-IV-V progression is the harmonic foundation of blues, rock, folk, " ++
      "country, and most popular music. In your key: " ++ noteName ++ " - " ++ ivNote ++
      " - " ++ vNote ++ "." }

/-! ## Tibetan analyzer (src/src/engine/frameworks/tibetan.js) -/

/-- A singing-bowl classification. -/
structure BowlInfo where
  size : String
  diameter : String
  weight : String
  character : String
  note : String
deriving DecidableEq

/-- Source `getBowlEquivalent(f0)`: bowl size by f0 band. -/
def getBowlEquivalent (f0 : ℚ) : BowlInfo :=
  if f0 < 150 then
    ⟨"Large", "25-35cm", "800-1500g", "Deep, grounding, long sustain",
      "These larger bowls produce fundamental frequencies in the bass range with rich, " ++
        "complex overtones."⟩
  else if f0 < 250 then
    ⟨"Medium", "15-25cm", "400-800g", "Balanced, warm, versatile",
      "Medium bowls are the most common and versatile, suitable for most practices."⟩
  else if f0 < 400 then
    ⟨"Small", "10-15cm", "200-400g", "Bright, clear, penetrating",
      "Smaller bowls have higher fundamentals with crisp, cutting overtones."⟩
  else
    ⟨"Very Small", "<10cm", "<200g", "High, ethereal, delicate",
      "The smallest bowls produce bell-like tones in the upper registers."⟩

/-- Source `analyzeTibetan` output (constant prose omitted). -/
structure TibetanResult where
  bowlEquivalent : BowlInfo
  overtones : List Overtone

/-- Source `analyzeTibetan(f0)`. -/
noncomputable def analyzeTibetan (f0 : ℚ) (a4 : ℝ) : TibetanResult :=
  ⟨getBowlEquivalent f0, getOvertones f0 a4⟩

/-! ## Neuroscience analyzer (src/src/engine/frameworks/neuroscience.js) -/

/-- One band of the brainwave target map. -/
structure BrainBand where
  name : String
  beatRange : String
  singRange : String
  state : String
  instruction : String
  color : String
deriving DecidableEq

/-- Source `analyzeNeuroscience` output: the five-band `brainwaveMap` (constant prose
omitted). -/
structure NeuroResult where
  delta : BrainBand
  theta : BrainBand
  alpha : BrainBand
  beta : BrainBand
  gamma : BrainBand
deriving DecidableEq

/-- Source `analyzeNeuroscience(f0)` / `getBrainwaveMap(f0)`. -/
def analyzeNeuroscience (f0 : ℚ) : NeuroResult :=
  { delta := ⟨"Delta (δ)", "0.5-4 Hz",
      formatHzQ (f0 - 4) ++ " - " ++ formatHzQ (f0 + 4) ++ " Hz",
      "Deep rest, restoration",
      "Sing within 4 Hz of your " ++ formatHzQ f0 ++ " Hz drone", "#2D3A4A"⟩
    theta := ⟨"Theta (θ)", "4-8 Hz",
      formatHzQ (f0 - 8) ++ " - " ++ formatHzQ (f0 - 4) ++ " Hz or " ++
        formatHzQ (f0 + 4) ++ " - " ++ formatHzQ (f0 + 8) ++ " Hz",
      "Creativity, dreams, intuition", "Sing 4-8 Hz above or below drone", "#5B4B8A"⟩
    alpha := ⟨"Alpha (α)", "8-12 Hz",
      formatHzQ (f0 - 12) ++ " - " ++ formatHzQ (f0 - 8) ++ " Hz or " ++
        formatHzQ (f0 + 8) ++ " - " ++ formatHzQ (f0 + 12) ++ " Hz",
      "Calm focus, meditation", "Sing 8-12 Hz above or below drone", "#4A7B5B"⟩
    beta := ⟨"Beta (β)", "12-30 Hz",
      formatHzQ (f0 - 30) ++ " - " ++ formatHzQ (f0 - 12) ++ " Hz or " ++
        formatHzQ (f0 + 12) ++ " - " ++ formatHzQ (f0 + 30) ++ " Hz",
      "Active thinking, concentration", "Sing 12-30 Hz above or below drone", "#B8863B"⟩
    gamma := ⟨"Gamma (γ)", "30+ Hz",
      "Below " ++ formatHzQ (f0 - 30) ++ " Hz or above " ++ formatHzQ (f0 + 30) ++ " Hz",
      "Peak performance, insight", "Sing 30+ Hz from drone", "#A84A4A"⟩ }

/-! ## Aggregator (src/src/engine/prism.js `calculatePrism`) -/

/-- The `input` block of the prism result. -/
structure InputInfo where
  f0 : ℚ
  f0Formatted : String
  nearestPitch : String
  nearestPitchHz : ℝ
  cents : ℤ
  centsFormatted : String

/-- The six framework analyses. -/
structure Frameworks where
  pythagorean : PythagoreanResult
  vedic : VedicResult
  gregorian : GregorianResult
  western : WesternResult
  tibetan : TibetanResult
  neuroscience : NeuroResult

/-- The two narrative strings. -/
structure Narrative where
  short : String
  medium : String
deriving DecidableEq

/-- Source `generateNarrative(input, frameworks)`. -/
def generateNarrative (f0 : ℚ) (nearestPitch centsFormatted : String)
    (fw : Frameworks) : Narrative :=
  { short := fw.western.vocalCategory.category ++ " voice at " ++ toString f0 ++ " Hz (" ++
      nearestPitch ++ "), " ++ fw.gregorian.mode.mode ++ " mode."
    medium := "At " ++ toString f0 ++ " Hz, your fundamental frequency aligns nearest to " ++
      nearestPitch ++ " (" ++ centsFormatted ++ " from standard). In the Vedic tradition, " ++
      "this is your Sa—your home note—sitting in " ++ fw.vedic.saptak.name ++
      ". The Gregorian monks would have called this " ++ fw.gregorian.mode.mode ++ ": " ++
      lowerStr fw.gregorian.mode.character ++ ". Your natural key is " ++
      fw.western.keySignature.key ++ "."}

/-- The complete prism result; `generated` is `new Date().toISOString()`. -/
structure PrismResult where
  input : InputInfo
  scale : List ScaleDegree
  frameworks : Frameworks
  narrative : Narrative
  generated : String

/-- Everything in a `PrismResult` except the `generated` timestamp. -/
def PrismResult.core (r : PrismResult) :
    InputInfo × List ScaleDegree × Frameworks × Narrative :=
  (r.input, r.scale, r.frameworks, r.narrative)

/-- Source `calculatePrism(f0)` for a number argument `f0`, with the module state
made explicit: throws (models `throw new Error(...)`) unless
`50 ≤ f0 ≤ 1000`, otherwise assembles the full analysis.  (See `JSNum` for
the NaN behaviour of the guard; a `ℚ` argument covers the finite inputs.) -/
noncomputable def calculatePrism (f0 : ℚ) (s : ModuleState) : Except String PrismResult :=
  if f0 < 50 ∨ 1000 < f0 then
    .error "f0 must be a number between 50 and 1000 Hz"
  else
    let nearestPitch := freqToNoteName ((f0 : ℚ) : ℝ) s.a4
    let nearestPitchHz := freqToNearestStandard ((f0 : ℚ) : ℝ) s.a4
    let cents := centsBetween ((f0 : ℚ) : ℝ) nearestPitchHz
    let input : InputInfo :=
      ⟨f0, formatHzQ f0, nearestPitch, round2R nearestPitchHz, jsRoundR cents,
        formatCentsR cents⟩
    let scale := generateScale f0 s.a4
    let frameworks : Frameworks :=
      ⟨analyzePythagorean f0 s.a4, analyzeVedic f0, analyzeGregorian f0 s.a4,
        analyzeWestern f0 s.a4, analyzeTibetan f0 s.a4, analyzeNeuroscience f0⟩
    let narrative := generateNarrative f0 nearestPitch (formatCentsR cents) frameworks
    .ok ⟨input, scale, frameworks, narrative, s.nowISO⟩

/-! ## Claim C1 — determinism of `calculatePrism` -/

/-- C1 (amended): with the module-level tuning state held fixed, two calls of
`calculatePrism(f0)` agree on every field except `generated`, which records
the wall-clock timestamp of the call: the analysis proper is a deterministic
function of `f0` and the current A4 reference (mutable via `setTuning`), but
the result is not identical across calls because of the run-dependent
`generated` field. -/
theorem calculatePrism_deterministic (f0 : ℚ) (s1 s2 : ModuleState)
    (h : s1.a4 = s2.a4) :
    (calculatePrism f0 s1).map PrismResult.core =
      (calculatePrism f0 s2).map PrismResult.core := by
  obtain ⟨t1, a1, n1⟩ := s1
  obtain ⟨t2, a2, n2⟩ := s2
  simp only at h
  subst h
  by_cases hc : f0 < 50 ∨ 1000 < f0 <;>
    simp only [calculatePrism, hc, if_true, if_false, ite_true, ite_false] <;> rfl

/-- Witness for C1: same tuning state, different clock, `f0 = 220`. -/
theorem calculatePrism_deterministic_witness :
    (calculatePrism 220 ⟨"A440", 440, "2024-01-01T00:00:00.000Z"⟩).map PrismResult.core =
      (calculatePrism 220 ⟨"A440", 440, "2024-06-15T12:30:00.000Z"⟩).map PrismResult.core :=
  calculatePrism_deterministic 220 _ _ rfl

/-- C1 counterexample (to the claim as stated): at the valid input `f0 = 220`,
two calls with the same tuning state but different clock readings return
different results — the `generated` field differs, so `calculatePrism` is not
a function of `f0` alone. -/
theorem calculatePrism_time_dependent :
    calculatePrism 220 ⟨"A440", 440, "2024-01-01T00:00:00.000Z"⟩ ≠
      calculatePrism 220 ⟨"A440", 440, "2024-06-15T12:30:00.000Z"⟩ := by
  intro h
  have h2 := congrArg (Except.map PrismResult.generated) h
  rw [calculatePrism, calculatePrism, if_neg (by norm_num), if_neg (by norm_num)] at h2
  simp only [Except.map] at h2
  exact absurd (Except.ok.inj h2) (by decide)

end VocalPrism
